import Mathlib

set_option maxHeartbeats 1000000

/-!
Verification of the orchestration core of `migrate_index.py` (an
Elasticsearch alias-migration tool) against its design specification.

The cluster is modelled by a `ClusterEnv` record of query responses: each
field describes what the cluster answers to one kind of request.  An
`Option`-valued response uses `none` for "the call raised an exception"
(for `aliasBindings`, specifically the `NotFoundError` the code catches).
Every embedded function returns its Python return value together with the
list of cluster requests it issued (`List Req`), so that statements about
"which calls are made" can be proved.  Unhandled transport exceptions
(which abort the Python process) are outside the environment model: the
response fields cover exactly the outcomes the code handles.
-/

/-- One entry of the `actions` list of an alias-update request
(`es.indices.update_aliases`). -/
inductive AliasAction where
  | remove (index : String) (alias_name : String)
  | add (index : String) (alias_name : String) (is_write_index : Bool)
deriving DecidableEq

/-- A request issued to the cluster. -/
inductive Req where
  | count (index : String)
  | indexExists (index : String)
  | reindex (source : String) (dest : String) (slices : Nat)
  | tasksGet (task_id : String)
  | tasksList
  | getAlias (name : String)
  | existsAlias (name : String)
  | indicesGet (names : List String)
  | indicesStats (index : String)
  | updateAliases (actions : List AliasAction)
  | createIndex (index : String) (mapping : String)
  | deleteIndex (index : String)
deriving DecidableEq

/-- Requests that mutate cluster state (indexes or alias bindings). -/
def Req.isMutating : Req → Bool
  | Req.reindex _ _ _ => true
  | Req.updateAliases _ => true
  | Req.createIndex _ _ => true
  | Req.deleteIndex _ => true
  | _ => false

/-- Alias-mutating requests: only the atomic alias-update call. -/
def Req.isAliasUpdate : Req → Bool
  | Req.updateAliases _ => true
  | _ => false

/-- Task-status polls (`es.tasks.get`). -/
def Req.isTasksGet : Req → Bool
  | Req.tasksGet _ => true
  | _ => false

/-- Reindex launches (`es.reindex`). -/
def Req.isReindex : Req → Bool
  | Req.reindex _ _ _ => true
  | _ => false

/-- Number of task-status polls in a request trace. -/
def pollCount (tr : List Req) : Nat := tr.countP Req.isTasksGet

/-- Outcome of one `es.tasks.get` poll: the call raised, or it returned a
status document with a `completed` flag and possibly an `error` field. -/
inductive PollResult where
  | raise
  | ok (completed : Bool) (hasError : Bool)
deriving DecidableEq

/-- One sub-task entry of the detailed `es.tasks.list` response. -/
structure SubTask where
  parent_task_id : String
  created : Nat
  total : Nat
deriving DecidableEq

/-- Result of a Python function that may terminate the process via
`sys.exit`. -/
inductive ProcResult (α : Type) where
  | ret (val : α)
  | exited (code : Nat)
deriving DecidableEq

/-- The cluster's responses.  Field order:
count, reindex, task status (per poll number), task list (per poll
number), alias existence, alias bindings (`none` = NotFoundError),
index existence (`none` = the probe raised), index creation success,
creation_date setting, alias-update success. -/
structure ClusterEnv where
  countResp : String → Option Nat
  reindexResp : Option (Option String)
  statusResp : Nat → PollResult
  sliceResp : Nat → Option (List SubTask)
  existsAliasResp : String → Bool
  aliasBindings : String → Option (List String)
  indexExistsResp : String → Option Bool
  createResp : String → Bool
  creationDate : String → Nat
  updateAliasesOk : Bool

/-- `estimate_reindex_params`: the threshold table mapping a document
count to (slices, timeout seconds, poll-interval seconds). -/
def estimate_reindex_params (doc_count : Nat) : Nat × Nat × Nat :=
  if doc_count < 100000 then (1, 300, 5)
  else if doc_count < 1000000 then (4, 600, 10)
  else if doc_count < 5000000 then (8, 1800, 15)
  else if doc_count < 50000000 then (16, 7200, 30)
  else if doc_count < 100000000 then (32, 10800, 45)
  else (0, 0, 0)

/-- `get_doc_count`: `es.count`, with any exception collapsed to 0. -/
def get_doc_count (env : ClusterEnv) (index_name : String) : Nat × List Req :=
  ((env.countResp index_name).getD 0, [Req.count index_name])

/-- `check_index_exists`: `es.indices.exists`, with any exception
collapsed to `false`. -/
def check_index_exists (env : ClusterEnv) (index_name : String) : Bool × List Req :=
  ((env.indexExistsResp index_name).getD false, [Req.indexExists index_name])

/-- `start_reindex_async`: launches the asynchronous copy job.  On an
exception it returns `none`; otherwise it returns `response.get("task")`,
which may itself be absent (`some none` in the environment). -/
def start_reindex_async (resp : Option (Option String)) (source_index dest_index : String)
    (slices : Nat) : Option String × List Req :=
  (match resp with
   | none => none
   | some task_id => task_id,
   [Req.reindex source_index dest_index slices])

/-- `get_reindex_slice_status` (inner helper of `track_task_status`):
best-effort aggregation of sub-task progress.  A failure of the
`es.tasks.list` call is swallowed (`none`); otherwise the entries whose
`parent_task_id` matches are summed.  The Python function only logs the
aggregate; here it is returned as an optional snapshot, which the caller
discards. -/
def get_reindex_slice_status (resp : Option (List SubTask)) (parent_task_id : String) :
    Option (Nat × Nat) :=
  match resp with
  | none => none
  | some tasks =>
    let ms := tasks.filter (fun t => t.parent_task_id == parent_task_id)
    if ms.isEmpty then none
    else some (ms.foldl (fun acc t => acc + t.created) 0,
               ms.foldl (fun acc t => acc + t.total) 0)

/-- The polling loop of `track_task_status`: while `elapsed < timeout`,
poll the task status (poll number `i`); on an exception return `false`;
on `completed` with an error field return `false`; on `completed` without
one return `true`; otherwise aggregate sub-task progress (discarded),
sleep, and continue with `elapsed + poll_interval`.  Termination requires
`0 < poll_interval`, which holds at every call site. -/
def track_loop (statusResp : Nat → PollResult) (sliceResp : Nat → Option (List SubTask))
    (task_id : String) (timeout poll_interval : Nat) (hp : 0 < poll_interval)
    (elapsed i : Nat) : Bool × List Req :=
  if h : elapsed < timeout then
    match statusResp i with
    | PollResult.raise => (false, [Req.tasksGet task_id])
    | PollResult.ok true true => (false, [Req.tasksGet task_id])
    | PollResult.ok true false => (true, [Req.tasksGet task_id])
    | PollResult.ok false _ =>
      let _progress := get_reindex_slice_status (sliceResp i) task_id
      let rest := track_loop statusResp sliceResp task_id timeout poll_interval hp
        (elapsed + poll_interval) (i + 1)
      (rest.1, Req.tasksGet task_id :: Req.tasksList :: rest.2)
  else (false, [])
termination_by timeout - elapsed
decreasing_by omega

/-- `track_task_status`: runs the polling loop from `elapsed = 0`.  When
`poll_interval = 0` the Python loop cannot advance `elapsed` and never
terminates on a non-terminal task; in the program `poll_interval` is
always positive (the estimator values 5..45 guarded by `slices != 0`, or
the defaults), so the model guards on `0 < poll_interval` and is exactly
the source loop there. -/
def track_task_status (statusResp : Nat → PollResult) (sliceResp : Nat → Option (List SubTask))
    (task_id : String) (timeout poll_interval : Nat) : Bool × List Req :=
  if hp : 0 < poll_interval then
    track_loop statusResp sliceResp task_id timeout poll_interval hp 0 0
  else (false, [])

/-- `reindex_data_async`: count the source's documents (0 means immediate
success), estimate parameters (slices 0 means refusal), launch the copy
job (a falsy task id — `None` or the empty string — means failure), then
drive the tracker and propagate its verdict. -/
def reindex_data_async (env : ClusterEnv) (source_index dest_index : String) :
    Bool × List Req :=
  let dc := get_doc_count env source_index
  let doc_count := dc.1
  let t0 := dc.2
  if doc_count = 0 then (true, t0)
  else
    match estimate_reindex_params doc_count with
    | (slices, timeout, poll_interval) =>
      if slices = 0 then (false, t0)
      else
        let st := start_reindex_async env.reindexResp source_index dest_index slices
        let t1 := t0 ++ st.2
        match st.1 with
        | none => (false, t1)
        | some tid =>
          if tid = "" then (false, t1)
          else
            let r := track_task_status env.statusResp env.sliceResp tid timeout poll_interval
            (r.1, t1 ++ r.2)

/-- `create_new_index`: `es.indices.create`; a `RequestError` is collapsed
to `false` (other exceptions are unhandled and outside the model). -/
def create_new_index (env : ClusterEnv) (new_index mapping : String) : Bool × List Req :=
  (env.createResp new_index, [Req.createIndex new_index mapping])

/-- `rename_index_if_needed`: if `name` is an alias (`es.indices.get_alias`
does not raise `NotFoundError`), do nothing.  Otherwise, if `name` is a
bare index, rename it out of the way: abort (`sys.exit(1)`) if the
suffixed name is taken, else create the suffixed index, migrate into it,
and delete `name`. -/
def rename_index_if_needed (env : ClusterEnv) (name mapping suffix : String) :
    ProcResult Unit × List Req :=
  match env.aliasBindings name with
  | some _ => (ProcResult.ret (), [Req.getAlias name])
  | none =>
    let e1 := check_index_exists env name
    let t1 := Req.getAlias name :: e1.2
    if e1.1 then
      let new_name := name ++ suffix
      let e2 := check_index_exists env new_name
      let t2 := t1 ++ e2.2
      if e2.1 then (ProcResult.exited 1, t2)
      else
        let c := create_new_index env new_name mapping
        let t3 := t2 ++ c.2
        if c.1 = false then (ProcResult.exited 1, t3)
        else
          let s := reindex_data_async env name new_name
          let t4 := t3 ++ s.2
          if s.1 = false then (ProcResult.exited 1, t4)
          else (ProcResult.ret (), t4 ++ [Req.deleteIndex name])
    else (ProcResult.ret (), t1)

/-- `update_alias_to_new_index`: read the current bindings of the alias
(`NotFoundError` means none, collapsed to the empty list), build one
actions list removing every currently-bound index and then adding
`new_index` as write-index, and submit it as a single alias-update
request; an exception on that request is collapsed to `false`. -/
def update_alias_to_new_index (env : ClusterEnv) (alias_name new_index : String) :
    Bool × List Req :=
  let old_indices := (env.aliasBindings alias_name).getD []
  let actions := (old_indices.map (fun i => AliasAction.remove i alias_name)) ++
    [AliasAction.add new_index alias_name true]
  (env.updateAliasesOk, [Req.getAlias alias_name, Req.updateAliases actions])

/-- Stable insertion of an (index, creation_date) pair into a list sorted
by descending creation_date: the new element (originally earlier in the
list) goes before every element with a smaller-or-equal date. -/
def insertDesc (x : String × Nat) : List (String × Nat) → List (String × Nat)
  | [] => [x]
  | y :: ys => if y.2 ≤ x.2 then x :: y :: ys else y :: insertDesc x ys

/-- Stable sort by descending creation_date.  A stable sort's output is
uniquely determined by the key and stability, so this agrees with
Python's `sorted(..., key=lambda x: int(x[1]), reverse=True)`. -/
def sortByCreationDesc : List (String × Nat) → List (String × Nat)
  | [] => []
  | x :: xs => insertDesc x (sortByCreationDesc xs)

/-- `get_latest_index_by_alias`: if the alias does not exist, run
`rename_index_if_needed` and return the suffixed name; if the alias query
raises (`none` bindings), the surrounding catch-all returns `None`; if
the alias is bound to no index, return the alias name itself; otherwise
fetch each bound index's creation date, sort descending, and return the
newest index (its stats call is issued but only logged). -/
def get_latest_index_by_alias (env : ClusterEnv) (alias_name mapping suffix : String) :
    ProcResult (Option String) × List Req :=
  if env.existsAliasResp alias_name = false then
    let r := rename_index_if_needed env alias_name mapping suffix
    let tr := Req.existsAlias alias_name :: r.2
    match r.1 with
    | ProcResult.exited c => (ProcResult.exited c, tr)
    | ProcResult.ret _ => (ProcResult.ret (some (alias_name ++ suffix)), tr)
  else
    match env.aliasBindings alias_name with
    | none => (ProcResult.ret none, [Req.existsAlias alias_name, Req.getAlias alias_name])
    | some index_names =>
      if index_names.isEmpty then
        (ProcResult.ret (some alias_name),
         [Req.existsAlias alias_name, Req.getAlias alias_name])
      else
        let pairs := index_names.map (fun i => (i, env.creationDate i))
        let sorted_indices := sortByCreationDesc pairs
        let latest_index := (sorted_indices.headD ("", 0)).1
        (ProcResult.ret (some latest_index),
         [Req.existsAlias alias_name, Req.getAlias alias_name,
          Req.indicesGet index_names, Req.indicesStats latest_index])

/-- A concrete environment for witnesses: every index reports `n`
documents, the reindex launch raises, every alias exists and is bound to
the single index "i1". -/
def envCount (n : Nat) : ClusterEnv :=
  ClusterEnv.mk (fun _ => some n) none (fun _ => PollResult.ok false false) (fun _ => none)
    (fun _ => true) (fun _ => some ["i1"]) (fun _ => some false) (fun _ => false)
    (fun _ => 0) false

/-- A concrete environment in which every alias exists but is bound to no
index at all. -/
def envEmptyAlias : ClusterEnv :=
  ClusterEnv.mk (fun _ => some 0) none (fun _ => PollResult.raise) (fun _ => none)
    (fun _ => true) (fun _ => some []) (fun _ => some false) (fun _ => false)
    (fun _ => 0) false

/-- A concrete environment in which every alias exists and is bound to
"i1" (creation date 5) and "i2" (creation date 9). -/
def envTwoBound : ClusterEnv :=
  ClusterEnv.mk (fun _ => some 0) none (fun _ => PollResult.raise) (fun _ => none)
    (fun _ => true) (fun _ => some ["i1", "i2"]) (fun _ => some false) (fun _ => false)
    (fun s => if s = "i2" then 9 else 5) false

/-- C2: the parameter estimator is a deterministic total function of the
document count alone and returns exactly the table values on each range,
with the (0, 0, 0) refusal sentinel at and above 100,000,000. -/
theorem estimate_matches_table (n : Nat) :
    (n < 100000 → estimate_reindex_params n = (1, 300, 5)) ∧
    (100000 ≤ n → n < 1000000 → estimate_reindex_params n = (4, 600, 10)) ∧
    (1000000 ≤ n → n < 5000000 → estimate_reindex_params n = (8, 1800, 15)) ∧
    (5000000 ≤ n → n < 50000000 → estimate_reindex_params n = (16, 7200, 30)) ∧
    (50000000 ≤ n → n < 100000000 → estimate_reindex_params n = (32, 10800, 45)) ∧
    (100000000 ≤ n → estimate_reindex_params n = (0, 0, 0)) := by
  unfold estimate_reindex_params
  refine ⟨?_, ?_, ?_, ?_, ?_, ?_⟩ <;> intros <;> split_ifs <;> first | rfl | omega

/-- C2 witness: each boundary's adjacent document counts hit the adjacent
table rows. -/
theorem estimate_matches_table_witness :
    estimate_reindex_params 99999 = (1, 300, 5) ∧
    estimate_reindex_params 100000 = (4, 600, 10) ∧
    estimate_reindex_params 999999 = (4, 600, 10) ∧
    estimate_reindex_params 1000000 = (8, 1800, 15) ∧
    estimate_reindex_params 4999999 = (8, 1800, 15) ∧
    estimate_reindex_params 5000000 = (16, 7200, 30) ∧
    estimate_reindex_params 49999999 = (16, 7200, 30) ∧
    estimate_reindex_params 50000000 = (32, 10800, 45) ∧
    estimate_reindex_params 99999999 = (32, 10800, 45) ∧
    estimate_reindex_params 100000000 = (0, 0, 0) :=
  ⟨(estimate_matches_table 99999).1 (by decide),
   (estimate_matches_table 100000).2.1 (by decide) (by decide),
   (estimate_matches_table 999999).2.1 (by decide) (by decide),
   (estimate_matches_table 1000000).2.2.1 (by decide) (by decide),
   (estimate_matches_table 4999999).2.2.1 (by decide) (by decide),
   (estimate_matches_table 5000000).2.2.2.1 (by decide) (by decide),
   (estimate_matches_table 49999999).2.2.2.1 (by decide) (by decide),
   (estimate_matches_table 50000000).2.2.2.2.1 (by decide) (by decide),
   (estimate_matches_table 99999999).2.2.2.2.1 (by decide) (by decide),
   (estimate_matches_table 100000000).2.2.2.2.2 (by decide)⟩

/-- C1: the cutover reads the alias's current bindings (an absent alias
is the empty set) and the only alias-mutating request it issues is one
alias-update whose actions remove every currently-bound index and then
add the new index to the alias with is_write_index true. -/
theorem cutover_single_atomic_request (env : ClusterEnv) (alias_name new_index : String) :
    ((update_alias_to_new_index env alias_name new_index).2).filter Req.isAliasUpdate =
      [Req.updateAliases
        ((((env.aliasBindings alias_name).getD []).map
            (fun i => AliasAction.remove i alias_name)) ++
          [AliasAction.add new_index alias_name true])] := rfl

/-- C5: if the source document count is 0, or the count query fails and
is treated as 0, migrate returns success immediately, launching no
reindex job and polling no task. -/
theorem migrate_zero_docs_noop (env : ClusterEnv) (source_index dest_index : String)
    (h : env.countResp source_index = some 0 ∨ env.countResp source_index = none) :
    (reindex_data_async env source_index dest_index).1 = true ∧
    ((reindex_data_async env source_index dest_index).2).filter Req.isReindex = [] ∧
    pollCount (reindex_data_async env source_index dest_index).2 = 0 := by
  have hdc : (env.countResp source_index).getD 0 = 0 := by
    rcases h with h | h <;> simp [h]
  simp [reindex_data_async, get_doc_count, hdc, pollCount, Req.isReindex, Req.isTasksGet]

/-- C5 witness: a concrete zero-document source is a no-op success. -/
theorem migrate_zero_docs_noop_witness :
    (reindex_data_async (envCount 0) "s" "d").1 = true ∧
    ((reindex_data_async (envCount 0) "s" "d").2).filter Req.isReindex = [] ∧
    pollCount (reindex_data_async (envCount 0) "s" "d").2 = 0 :=
  migrate_zero_docs_noop (envCount 0) "s" "d" (Or.inl rfl)

/-- C6: a source with at least 100,000,000 documents makes the estimator
return the refusal sentinel and migrate fails without ever issuing a
reindex request. -/
theorem migrate_oversized_refusal (env : ClusterEnv) (source_index dest_index : String)
    (n : Nat) (hc : env.countResp source_index = some n) (hn : 100000000 ≤ n) :
    (reindex_data_async env source_index dest_index).1 = false ∧
    ((reindex_data_async env source_index dest_index).2).filter Req.isReindex = [] := by
  have hz : ¬ n = 0 := by omega
  have he : estimate_reindex_params n = (0, 0, 0) := by
    unfold estimate_reindex_params; split_ifs <;> first | rfl | omega
  simp [reindex_data_async, get_doc_count, hc, hz, he, Req.isReindex]

/-- C6 witness: 150,000,000 documents are refused with no reindex
request. -/
theorem migrate_oversized_refusal_witness :
    (reindex_data_async (envCount 150000000) "s" "d").1 = false ∧
    ((reindex_data_async (envCount 150000000) "s" "d").2).filter Req.isReindex = [] :=
  migrate_oversized_refusal (envCount 150000000) "s" "d" 150000000 rfl (by decide)

/-- C10: if the launch of the copy job fails (the launch call raises, or
the response carries no task id), migrate returns failure with exactly
the one failed launch request in its trace and without a single task
poll. -/
theorem migrate_launch_failure_no_poll (env : ClusterEnv) (source_index dest_index : String)
    (n : Nat) (hc : env.countResp source_index = some n) (hn : ¬ n = 0)
    (hs : ¬ (estimate_reindex_params n).1 = 0)
    (hf : env.reindexResp = none ∨ env.reindexResp = some none) :
    (reindex_data_async env source_index dest_index).1 = false ∧
    pollCount (reindex_data_async env source_index dest_index).2 = 0 ∧
    ((reindex_data_async env source_index dest_index).2).filter Req.isReindex =
      [Req.reindex source_index dest_index (estimate_reindex_params n).1] := by
  rcases he : estimate_reindex_params n with ⟨slices, rest⟩
  rw [he] at hs
  simp only [] at hs
  rcases hf with hf | hf <;>
    simp [reindex_data_async, get_doc_count, start_reindex_async, hc, hn, he, hf, hs,
      pollCount, Req.isReindex, Req.isTasksGet]

/-- C10 witness: a concrete failed launch (the reindex call raises) on a
50,000-document source fails without polling. -/
theorem migrate_launch_failure_no_poll_witness :
    (reindex_data_async (envCount 50000) "s" "d").1 = false ∧
    pollCount (reindex_data_async (envCount 50000) "s" "d").2 = 0 ∧
    ((reindex_data_async (envCount 50000) "s" "d").2).filter Req.isReindex =
      [Req.reindex "s" "d" (estimate_reindex_params 50000).1] :=
  migrate_launch_failure_no_poll (envCount 50000) "s" "d" 50000 rfl (by decide) (by decide)
    (Or.inl rfl)

/-- C9: when the name is already an alias, the rename-if-needed resolver
issues only the single read-only alias probe — zero mutating cluster
calls, so in particular a second invocation in the same state again
performs zero mutating calls. -/
theorem rename_on_alias_no_mutation (env : ClusterEnv) (name mapping suffix : String)
    (h : (env.aliasBindings name).isSome = true) :
    (rename_index_if_needed env name mapping suffix).2 = [Req.getAlias name] ∧
    ∀ r ∈ (rename_index_if_needed env name mapping suffix).2, r.isMutating = false := by
  rcases hb : env.aliasBindings name with _ | bs
  · rw [hb] at h; simp at h
  · constructor
    · simp [rename_index_if_needed, hb]
    · intro r hr
      rw [rename_index_if_needed] at hr
      simp [hb] at hr
      simp [hr, Req.isMutating]

/-- C9 witness: a concrete alias probe performs zero mutating calls. -/
theorem rename_on_alias_no_mutation_witness :
    (rename_index_if_needed (envCount 0) "a" "m" "_backup").2 = [Req.getAlias "a"] ∧
    ∀ r ∈ (rename_index_if_needed (envCount 0) "a" "m" "_backup").2, r.isMutating = false :=
  rename_on_alias_no_mutation (envCount 0) "a" "m" "_backup" rfl

theorem track_loop_stop (statusResp : Nat → PollResult)
    (sliceResp : Nat → Option (List SubTask)) (task_id : String)
    (timeout poll_interval : Nat) (hp : 0 < poll_interval) (elapsed i : Nat)
    (h : ¬ elapsed < timeout) :
    track_loop statusResp sliceResp task_id timeout poll_interval hp elapsed i =
      (false, []) := by
  rw [track_loop]
  simp [h]

theorem track_loop_raise (statusResp : Nat → PollResult)
    (sliceResp : Nat → Option (List SubTask)) (task_id : String)
    (timeout poll_interval : Nat) (hp : 0 < poll_interval) (elapsed i : Nat)
    (h : elapsed < timeout) (hs : statusResp i = PollResult.raise) :
    track_loop statusResp sliceResp task_id timeout poll_interval hp elapsed i =
      (false, [Req.tasksGet task_id]) := by
  rw [track_loop]
  simp [h, hs]

theorem track_loop_done_ok (statusResp : Nat → PollResult)
    (sliceResp : Nat → Option (List SubTask)) (task_id : String)
    (timeout poll_interval : Nat) (hp : 0 < poll_interval) (elapsed i : Nat)
    (h : elapsed < timeout) (hs : statusResp i = PollResult.ok true false) :
    track_loop statusResp sliceResp task_id timeout poll_interval hp elapsed i =
      (true, [Req.tasksGet task_id]) := by
  rw [track_loop]
  simp [h, hs]

theorem track_loop_done_err (statusResp : Nat → PollResult)
    (sliceResp : Nat → Option (List SubTask)) (task_id : String)
    (timeout poll_interval : Nat) (hp : 0 < poll_interval) (elapsed i : Nat)
    (h : elapsed < timeout) (hs : statusResp i = PollResult.ok true true) :
    track_loop statusResp sliceResp task_id timeout poll_interval hp elapsed i =
      (false, [Req.tasksGet task_id]) := by
  rw [track_loop]
  simp [h, hs]

theorem track_loop_cont (statusResp : Nat → PollResult)
    (sliceResp : Nat → Option (List SubTask)) (task_id : String)
    (timeout poll_interval : Nat) (hp : 0 < poll_interval) (elapsed i : Nat)
    (h : elapsed < timeout) (b : Bool) (hs : statusResp i = PollResult.ok false b) :
    track_loop statusResp sliceResp task_id timeout poll_interval hp elapsed i =
      ((track_loop statusResp sliceResp task_id timeout poll_interval hp
          (elapsed + poll_interval) (i + 1)).1,
        Req.tasksGet task_id :: Req.tasksList ::
          (track_loop statusResp sliceResp task_id timeout poll_interval hp
            (elapsed + poll_interval) (i + 1)).2) := by
  rw [track_loop]
  simp [h, hs]

theorem track_loop_skip (statusResp : Nat → PollResult)
    (sliceResp : Nat → Option (List SubTask)) (task_id : String)
    (timeout poll_interval : Nat) (hp : 0 < poll_interval) :
    ∀ (k elapsed i : Nat),
      (∀ j, j < k → ∃ b, statusResp (i + j) = PollResult.ok false b) →
      (∀ j, j < k → elapsed + j * poll_interval < timeout) →
      (track_loop statusResp sliceResp task_id timeout poll_interval hp elapsed i).1 =
        (track_loop statusResp sliceResp task_id timeout poll_interval hp
          (elapsed + k * poll_interval) (i + k)).1 ∧
      pollCount (track_loop statusResp sliceResp task_id timeout poll_interval hp
          elapsed i).2 =
        k + pollCount (track_loop statusResp sliceResp task_id timeout poll_interval hp
          (elapsed + k * poll_interval) (i + k)).2 := by
  intro k
  induction k with
  | zero => intro elapsed i _ _; simp
  | succ k ih =>
    intro elapsed i h1 h2
    obtain ⟨b, hb⟩ := h1 0 (Nat.succ_pos k)
    have hlt : elapsed < timeout := by
      have := h2 0 (Nat.succ_pos k); simpa using this
    rw [track_loop_cont statusResp sliceResp task_id timeout poll_interval hp elapsed i hlt b
      (by simpa using hb)]
    have h1' : ∀ j, j < k → ∃ b, statusResp (i + 1 + j) = PollResult.ok false b := by
      intro j hj
      have hx := h1 (j + 1) (by omega)
      have heq : i + (j + 1) = i + 1 + j := by omega
      rwa [heq] at hx
    have h2' : ∀ j, j < k → (elapsed + poll_interval) + j * poll_interval < timeout := by
      intro j hj
      have hx := h2 (j + 1) (by omega)
      have heq : elapsed + (j + 1) * poll_interval =
          elapsed + poll_interval + j * poll_interval := by ring
      rwa [heq] at hx
    obtain ⟨ihv, ihc⟩ := ih (elapsed + poll_interval) (i + 1) h1' h2'
    have heq2 : elapsed + poll_interval + k * poll_interval =
        elapsed + (k + 1) * poll_interval := by ring
    have heq3 : i + 1 + k = i + (k + 1) := by omega
    rw [heq2, heq3] at ihv ihc
    refine ⟨by simpa using ihv, ?_⟩
    simp only [pollCount] at ihc
    simp [pollCount, List.countP_cons, Req.isTasksGet]
    omega

theorem ceil_lt_of_lt (t p j : Nat) (hp : 0 < p) (hj : j < (t + p - 1) / p) : j * p < t := by
  have h1 : (j + 1) * p ≤ t + p - 1 := (Nat.le_div_iff_mul_le hp).mp hj
  have h2 : (j + 1) * p = j * p + p := by ring
  omega

theorem ceil_mul_ge (t p : Nat) (hp : 0 < p) : t ≤ ((t + p - 1) / p) * p := by
  rcases Nat.eq_zero_or_pos t with ht | ht
  · simp [ht]
  · have h1 : t + p - 1 = (t - 1) + p := by omega
    rw [h1, Nat.add_div_right _ hp]
    have h3 := Nat.div_add_mod (t - 1) p
    have h4 : (t - 1) % p < p := Nat.mod_lt _ hp
    have h5 : ((t - 1) / p + 1) * p = p * ((t - 1) / p) + p := by ring
    omega

/-- C4: if the status query never reports a completed task and never
raises, the tracker terminates with a failure verdict and performs
exactly ceil(timeout / poll_interval) status polls, elapsed time
advancing in fixed poll_interval increments. -/
theorem tracker_timeout_poll_count (statusResp : Nat → PollResult)
    (sliceResp : Nat → Option (List SubTask)) (task_id : String)
    (timeout poll_interval : Nat) (hp : 0 < poll_interval) (ht : 0 < timeout)
    (hnc : ∀ i, ∃ b, statusResp i = PollResult.ok false b) :
    (track_task_status statusResp sliceResp task_id timeout poll_interval).1 = false ∧
    pollCount (track_task_status statusResp sliceResp task_id timeout poll_interval).2 =
      (timeout + poll_interval - 1) / poll_interval := by
  have hts : track_task_status statusResp sliceResp task_id timeout poll_interval =
      track_loop statusResp sliceResp task_id timeout poll_interval hp 0 0 := by
    unfold track_task_status
    rw [dif_pos hp]
  obtain ⟨hv, hcnt⟩ := track_loop_skip statusResp sliceResp task_id timeout poll_interval hp
    ((timeout + poll_interval - 1) / poll_interval) 0 0
    (fun j _ => by simpa using hnc j)
    (fun j hj => by
      have := ceil_lt_of_lt timeout poll_interval j hp hj
      omega)
  have hstop : track_loop statusResp sliceResp task_id timeout poll_interval hp
      (0 + ((timeout + poll_interval - 1) / poll_interval) * poll_interval)
      (0 + (timeout + poll_interval - 1) / poll_interval) = (false, []) := by
    apply track_loop_stop
    have := ceil_mul_ge timeout poll_interval hp
    omega
  rw [hstop] at hv hcnt
  rw [hts]
  exact ⟨by simpa using hv, by simpa [pollCount] using hcnt⟩

/-- C4 witness: with a never-completing task, timeout 7 and interval 3,
the tracker fails after ceil(7/3) polls. -/
theorem tracker_timeout_poll_count_witness :
    (track_task_status (fun _ => PollResult.ok false false) (fun _ => none) "t" 7 3).1 =
      false ∧
    pollCount (track_task_status (fun _ => PollResult.ok false false)
      (fun _ => none) "t" 7 3).2 = (7 + 3 - 1) / 3 :=
  tracker_timeout_poll_count (fun _ => PollResult.ok false false) (fun _ => none) "t" 7 3
    (by decide) (by decide) (fun _ => ⟨false, rfl⟩)

/-- C3: with the first k polls reporting a non-completed task and poll k
happening before the timeout, the tracker returns success exactly when
poll k reports completed with no error field, failure when poll k reports
completed with an error field, and failure immediately when poll k's
status query raises — in each case after exactly k + 1 polls, with no
further poll or retry. -/
theorem tracker_terminal_cases (statusResp : Nat → PollResult)
    (sliceResp : Nat → Option (List SubTask)) (task_id : String)
    (timeout poll_interval : Nat) (hp : 0 < poll_interval) (k : Nat)
    (hk : k * poll_interval < timeout)
    (hprev : ∀ j, j < k → ∃ b, statusResp j = PollResult.ok false b) :
    (statusResp k = PollResult.ok true false →
      (track_task_status statusResp sliceResp task_id timeout poll_interval).1 = true ∧
      pollCount (track_task_status statusResp sliceResp task_id timeout
        poll_interval).2 = k + 1) ∧
    (statusResp k = PollResult.ok true true →
      (track_task_status statusResp sliceResp task_id timeout poll_interval).1 = false ∧
      pollCount (track_task_status statusResp sliceResp task_id timeout
        poll_interval).2 = k + 1) ∧
    (statusResp k = PollResult.raise →
      (track_task_status statusResp sliceResp task_id timeout poll_interval).1 = false ∧
      pollCount (track_task_status statusResp sliceResp task_id timeout
        poll_interval).2 = k + 1) := by
  have hts : track_task_status statusResp sliceResp task_id timeout poll_interval =
      track_loop statusResp sliceResp task_id timeout poll_interval hp 0 0 := by
    unfold track_task_status
    rw [dif_pos hp]
  obtain ⟨hv, hcnt⟩ := track_loop_skip statusResp sliceResp task_id timeout poll_interval hp
    k 0 0
    (fun j hj => by simpa using hprev j hj)
    (fun j hj => by
      have hle : j * poll_interval ≤ k * poll_interval :=
        Nat.mul_le_mul_right _ (by omega)
      omega)
  have hlt : 0 + k * poll_interval < timeout := by omega
  refine ⟨?_, ?_, ?_⟩ <;> intro hs
  · have hstep := track_loop_done_ok statusResp sliceResp task_id timeout poll_interval hp
      (0 + k * poll_interval) (0 + k) hlt (by simpa using hs)
    rw [hstep] at hv hcnt
    rw [hts]
    refine ⟨by simpa using hv, ?_⟩
    simp [pollCount, List.countP_cons, Req.isTasksGet] at hcnt
    simp only [pollCount]
    omega
  · have hstep := track_loop_done_err statusResp sliceResp task_id timeout poll_interval hp
      (0 + k * poll_interval) (0 + k) hlt (by simpa using hs)
    rw [hstep] at hv hcnt
    rw [hts]
    refine ⟨by simpa using hv, ?_⟩
    simp [pollCount, List.countP_cons, Req.isTasksGet] at hcnt
    simp only [pollCount]
    omega
  · have hstep := track_loop_raise statusResp sliceResp task_id timeout poll_interval hp
      (0 + k * poll_interval) (0 + k) hlt (by simpa using hs)
    rw [hstep] at hv hcnt
    rw [hts]
    refine ⟨by simpa using hv, ?_⟩
    simp [pollCount, List.countP_cons, Req.isTasksGet] at hcnt
    simp only [pollCount]
    omega

/-- C3 witness: two non-completed polls then a clean completion give
success after exactly three polls. -/
theorem tracker_terminal_cases_witness :
    (track_task_status
      (fun j => if j < 2 then PollResult.ok false false else PollResult.ok true false)
      (fun _ => none) "t" 300 5).1 = true ∧
    pollCount (track_task_status
      (fun j => if j < 2 then PollResult.ok false false else PollResult.ok true false)
      (fun _ => none) "t" 300 5).2 = 2 + 1 :=
  (tracker_terminal_cases
    (fun j => if j < 2 then PollResult.ok false false else PollResult.ok true false)
    (fun _ => none) "t" 300 5 (by decide) 2 (by decide)
    (fun j hj => ⟨false, by simp [hj]⟩)).1 (by decide)

theorem track_loop_slice_irrel (statusResp : Nat → PollResult)
    (sr1 sr2 : Nat → Option (List SubTask)) (task_id : String)
    (timeout poll_interval : Nat) (hp : 0 < poll_interval) :
    ∀ (n elapsed i : Nat), timeout - elapsed ≤ n →
      track_loop statusResp sr1 task_id timeout poll_interval hp elapsed i =
      track_loop statusResp sr2 task_id timeout poll_interval hp elapsed i := by
  intro n
  induction n with
  | zero =>
    intro elapsed i h
    have hnl : ¬ elapsed < timeout := by omega
    rw [track_loop_stop statusResp sr1 task_id timeout poll_interval hp elapsed i hnl,
      track_loop_stop statusResp sr2 task_id timeout poll_interval hp elapsed i hnl]
  | succ n ih =>
    intro elapsed i h
    by_cases hlt : elapsed < timeout
    · cases hs : statusResp i with
      | raise =>
        rw [track_loop_raise statusResp sr1 task_id timeout poll_interval hp elapsed i hlt hs,
          track_loop_raise statusResp sr2 task_id timeout poll_interval hp elapsed i hlt hs]
      | ok c b =>
        cases c
        · rw [track_loop_cont statusResp sr1 task_id timeout poll_interval hp elapsed i
            hlt b hs,
            track_loop_cont statusResp sr2 task_id timeout poll_interval hp elapsed i
            hlt b hs,
            ih (elapsed + poll_interval) (i + 1) (by omega)]
        · cases b
          · rw [track_loop_done_ok statusResp sr1 task_id timeout poll_interval hp elapsed i
              hlt hs,
              track_loop_done_ok statusResp sr2 task_id timeout poll_interval hp elapsed i
              hlt hs]
          · rw [track_loop_done_err statusResp sr1 task_id timeout poll_interval hp elapsed i
              hlt hs,
              track_loop_done_err statusResp sr2 task_id timeout poll_interval hp elapsed i
              hlt hs]
    · rw [track_loop_stop statusResp sr1 task_id timeout poll_interval hp elapsed i hlt,
        track_loop_stop statusResp sr2 task_id timeout poll_interval hp elapsed i hlt]

/-- C8: the sub-task progress aggregation between polls is a pure side
channel: the tracker's verdict is the same for any two task-list
responses — whether the list query succeeds, finds no matching
sub-tasks, or fails, a failure of the aggregation never changes the
success/failure/timeout outcome. -/
theorem tracker_verdict_ignores_slices (statusResp : Nat → PollResult)
    (sr1 sr2 : Nat → Option (List SubTask)) (task_id : String)
    (timeout poll_interval : Nat) (hp : 0 < poll_interval) :
    (track_task_status statusResp sr1 task_id timeout poll_interval).1 =
    (track_task_status statusResp sr2 task_id timeout poll_interval).1 := by
  unfold track_task_status
  rw [dif_pos hp, dif_pos hp,
    track_loop_slice_irrel statusResp sr1 sr2 task_id timeout poll_interval hp
      timeout 0 0 (by omega)]

/-- C8 witness: a failing task-list query and an empty one yield the same
verdict on a concrete run. -/
theorem tracker_verdict_ignores_slices_witness :
    (track_task_status (fun _ => PollResult.ok false false) (fun _ => none) "t" 7 3).1 =
    (track_task_status (fun _ => PollResult.ok false false)
      (fun _ => some []) "t" 7 3).1 :=
  tracker_verdict_ignores_slices (fun _ => PollResult.ok false false) (fun _ => none)
    (fun _ => some []) "t" 7 3 (by decide)

theorem sortByCreationDesc_head_max (x : String × Nat) (l : List (String × Nat)) :
    ∃ h t, sortByCreationDesc (x :: l) = h :: t ∧ h ∈ x :: l ∧
      ∀ y ∈ x :: l, y.2 ≤ h.2 := by
  induction l generalizing x with
  | nil =>
    refine ⟨x, [], rfl, List.mem_cons_self x [], ?_⟩
    intro y hy
    simp at hy
    subst hy
    exact le_refl _
  | cons z zs ih =>
    obtain ⟨h, t, hs, hm, hmax⟩ := ih z
    have hunfold : sortByCreationDesc (x :: z :: zs) =
        insertDesc x (sortByCreationDesc (z :: zs)) := rfl
    by_cases hc : h.2 ≤ x.2
    · refine ⟨x, h :: t, ?_, List.mem_cons_self _ _, ?_⟩
      · rw [hunfold, hs]
        simp [insertDesc, hc]
      · intro y hy
        rcases List.mem_cons.mp hy with hy | hy
        · subst hy; exact le_refl _
        · exact le_trans (hmax y hy) hc
    · refine ⟨h, insertDesc x t, ?_, List.mem_cons_of_mem x hm, ?_⟩
      · rw [hunfold, hs]
        simp [insertDesc, hc]
      · intro y hy
        rcases List.mem_cons.mp hy with hy | hy
        · subst hy; omega
        · exact hmax y hy

/-- C7 (amended): for an existing alias bound to a non-empty set of
indexes, the resolver returns a bound index whose creation timestamp is
maximal among the bound indexes; for an existing alias with zero bound
indexes it returns the alias name itself rather than none. -/
theorem latest_index_by_alias_spec (env : ClusterEnv) (alias_name mapping suffix : String)
    (names : List String) (hex : env.existsAliasResp alias_name = true)
    (hb : env.aliasBindings alias_name = some names) :
    (names ≠ [] → ∃ idx, (get_latest_index_by_alias env alias_name mapping suffix).1 =
        ProcResult.ret (some idx) ∧ idx ∈ names ∧
        ∀ j ∈ names, env.creationDate j ≤ env.creationDate idx) ∧
    (names = [] → (get_latest_index_by_alias env alias_name mapping suffix).1 =
        ProcResult.ret (some alias_name)) := by
  constructor
  · intro hne
    rcases names with _ | ⟨n0, rest⟩
    · exact absurd rfl hne
    obtain ⟨h, t, hs, hm, hmax⟩ := sortByCreationDesc_head_max
      (n0, env.creationDate n0) (List.map (fun i => (i, env.creationDate i)) rest)
    have hm' : h ∈ List.map (fun i => (i, env.creationDate i)) (n0 :: rest) := by
      rw [List.map_cons]; exact hm
    obtain ⟨i, hi, hfi⟩ := List.mem_map.mp hm'
    refine ⟨h.1, ?_, ?_, ?_⟩
    · simp [get_latest_index_by_alias, hex, hb, List.map_cons, hs]
    · rw [← hfi]
      exact hi
    · intro j hj
      have hjm : (j, env.creationDate j) ∈
          List.map (fun i => (i, env.creationDate i)) (n0 :: rest) :=
        List.mem_map_of_mem _ hj
      rw [List.map_cons] at hjm
      have hle := hmax _ hjm
      rw [← hfi] at hle ⊢
      exact hle
  · intro hemp
    subst hemp
    simp [get_latest_index_by_alias, hex, hb]

/-- C7 counterexample: with alias "a" existing but bound to zero indexes,
the resolver returns the alias name "a" itself, not none as the claim
states. -/
theorem latest_index_zero_bound_counterexample :
    (get_latest_index_by_alias envEmptyAlias "a" "m" "_backup").1 =
      ProcResult.ret (some "a") ∧
    ProcResult.ret (some "a") ≠ (ProcResult.ret (none : Option String)) := by
  constructor
  · rfl
  · simp

/-- C7 witness: with the alias bound to "i1" (creation date 5) and "i2"
(creation date 9), the resolver returns a bound index of maximal
creation date. -/
theorem latest_index_by_alias_spec_witness :
    ∃ idx, (get_latest_index_by_alias envTwoBound "a" "m" "_backup").1 =
        ProcResult.ret (some idx) ∧ idx ∈ ["i1", "i2"] ∧
        ∀ j ∈ ["i1", "i2"], envTwoBound.creationDate j ≤ envTwoBound.creationDate idx :=
  (latest_index_by_alias_spec envTwoBound "a" "m" "_backup" ["i1", "i2"] rfl rfl).1
    (by simp)
